import Mathlib

/-!
Verification of the WSL DistroLauncher OOBE state-machine controllers.

The installer controller is embedded from `src/DistroLauncher/installer_controller.h`.
The state-machine engine (`state_machine.h`) and the splash controller
(`splash_controller.h`) are not present in the sources; their dispatch semantics and
the splash transitions are modelled from the specification, as marked on each
definition. Side effects performed through the capability provider (file copies,
synchronous and asynchronous launches, process waits, exit-status handling) are
recorded as an explicit effect trace returned alongside the transition result.
-/

namespace Oobe

/-- HRESULT constant: not implemented. -/
def E_NOTIMPL : Nat := 0x80004001

/-- HRESULT constant: unspecified (generic) failure. -/
def E_FAIL : Nat := 0x80004005

/-- The Win32 DWORD sentinel for an unbounded wait. -/
def INFINITE : Nat := 0xFFFFFFFF

/-- InstallerController::Mode from the source. -/
inductive Mode
  | Gui
  | Text
deriving DecidableEq

/-- InstallerController::Events: the five installer events, with their payloads. -/
inductive IEvent
  | AutoInstall (answers_file : String)
  | InteractiveInstall
  | Reconfig
  | StartInstaller
  | BlockOnInstaller
deriving DecidableEq

/-- InstallerController::States: the seven installer states with their captured data.
`PreparedGui`/`PreparedTui` store the composed command line and a mode field
(defaulted to `Gui`/`Text` by the source), `Ready` stores the process handle and
the wait timeout, `UpstreamDefaultInstall` stores the HRESULT reason code. -/
inductive IState
  | Closed
  | AutoInstalling (cli : String)
  | PreparedGui (cli : String) (mode : Mode)
  | PreparedTui (cli : String) (mode : Mode)
  | Ready (oobeProcess : Nat) (timeout : Nat)
  | UpstreamDefaultInstall (hr : Nat)
  | Success
deriving DecidableEq

/-- The installer capability provider (the `Policy` template parameter of
`InstallerController`), embedded as a record of pure functions. `fs_exists`
models the direct `std::filesystem::exists` call made by the `AutoInstall`
handler; `do_launch_sync` and `consume_process` return the observed exit code
(a timed-out wait surfaces as a non-zero code); `start_installer_async` returns
the process handle or `none` for a null handle. -/
structure InstallerPolicy where
  is_oobe_available : Bool
  OobeCommand : String
  prepare_prefill_info : String
  must_run_in_text_mode : Bool
  fs_exists : String → Bool
  copy_file_into_distro : String → String → Bool
  do_launch_sync : String → Nat
  start_installer_async : String → Option Nat
  consume_process : Nat → Nat → Nat

/-- Observable provider side effects performed inside installer transition handlers. -/
inductive IEff
  | copyFile (src dst : String)
  | launchSync (cli : String)
  | launchAsync (cli : String)
  | consumeProc (handle timeout : Nat)
  | handleExitStatus
  | logMsg (msg : String)
deriving DecidableEq

/-- Characters of the current path component, restarting at every separator;
the accumulator holds the component seen so far, reversed. -/
def filenameChars : List Char → List Char → List Char
  | [], acc => acc.reverse
  | c :: cs, acc =>
      if c = '/' then filenameChars cs [] else filenameChars cs (c :: acc)

/-- `std::filesystem::path::filename` for slash-separated paths: the component
after the last separator. -/
def pathFilename (p : String) : String :=
  String.mk (filenameChars p.data [])

/-- The fixed staging directory the answers file is copied into. -/
def stagingDir : String := "/var/tmp/"

/-- States::Closed::on_event(Events::AutoInstall), from the source: check
availability, check the answers file exists, copy it to `/var/tmp/<filename>`
inside the distro, and on success compose the text-mode autoinstall command line. -/
def Closed_onAutoInstall (P : InstallerPolicy) (answers_file : String) :
    IState × List IEff :=
  if P.is_oobe_available = false then
    (IState.UpstreamDefaultInstall E_NOTIMPL, [])
  else if P.fs_exists answers_file = false then
    (IState.UpstreamDefaultInstall E_FAIL,
      [IEff.logMsg "Answers file not found. Cannot proceed with auto installation"])
  else
    let source := answers_file
    let destination := stagingDir ++ pathFilename source
    if P.copy_file_into_distro source destination = false then
      (IState.UpstreamDefaultInstall E_FAIL,
        [IEff.copyFile source destination,
         IEff.logMsg "Failed to copy the answers file into the distro file system. Cannot proceed with auto installation"])
    else
      let commandLine := P.OobeCommand ++ " --text " ++ "--autoinstall " ++ destination
      (IState.AutoInstalling commandLine, [IEff.copyFile source destination])

/-- States::Closed::on_event(Events::InteractiveInstall), from the source:
seed the command line with pre-fill information and pick GUI or TUI mode. -/
def Closed_onInteractiveInstall (P : InstallerPolicy) : IState × List IEff :=
  if P.is_oobe_available = false then
    (IState.UpstreamDefaultInstall E_NOTIMPL, [])
  else
    let commandLine := P.OobeCommand ++ P.prepare_prefill_info
    if P.must_run_in_text_mode then
      (IState.PreparedTui (commandLine ++ " --text") Mode.Text, [])
    else
      (IState.PreparedGui commandLine Mode.Gui, [])

/-- States::Closed::on_event(Events::Reconfig), from the source: compose the
(possibly text-mode) command line, launch it synchronously, and branch on the
exit code. -/
def Closed_onReconfig (P : InstallerPolicy) : IState × List IEff :=
  if P.is_oobe_available = false then
    (IState.UpstreamDefaultInstall E_NOTIMPL, [])
  else
    let commandLine :=
      P.OobeCommand ++ (if P.must_run_in_text_mode then " --text" else "")
    if P.do_launch_sync commandLine ≠ 0 then
      (IState.UpstreamDefaultInstall E_FAIL, [IEff.launchSync commandLine])
    else
      (IState.Success, [IEff.launchSync commandLine])

/-- States::AutoInstalling::on_event(Events::BlockOnInstaller), from the source:
launch the stored command line synchronously; on zero exit invoke exit-status
handling and succeed. -/
def AutoInstalling_onBlock (P : InstallerPolicy) (cli : String) :
    IState × List IEff :=
  if P.do_launch_sync cli ≠ 0 then
    (IState.UpstreamDefaultInstall E_FAIL, [IEff.launchSync cli])
  else
    (IState.Success, [IEff.launchSync cli, IEff.handleExitStatus])

/-- InstallerController::start_installer_async, from the source: the timeout is
`INFINITE` in text mode and 4 minutes in milliseconds in GUI mode; a null
process handle falls back. -/
def start_installer_async (P : InstallerPolicy) (mode : Mode) (command : String) :
    IState × List IEff :=
  let timeoutMs := if mode = Mode.Text then INFINITE else 1000 * 60 * 4
  match P.start_installer_async command with
  | none => (IState.UpstreamDefaultInstall E_FAIL, [IEff.launchAsync command])
  | some oobeProcess => (IState.Ready oobeProcess timeoutMs, [IEff.launchAsync command])

/-- States::Ready::on_event(Events::BlockOnInstaller), from the source: consume
the process handle with the stored timeout (the handle is released by
`consume_process` on every path); on zero exit invoke exit-status handling. -/
def Ready_onBlock (P : InstallerPolicy) (oobeProcess timeout : Nat) :
    IState × List IEff :=
  if P.consume_process oobeProcess timeout ≠ 0 then
    (IState.UpstreamDefaultInstall E_FAIL, [IEff.consumeProc oobeProcess timeout])
  else
    (IState.Success, [IEff.consumeProc oobeProcess timeout, IEff.handleExitStatus])

/-- The (state kind, event kind) pairs for which the source declares an
`on_event` handler overload. -/
def installerHasHandler : IState → IEvent → Bool
  | IState.Closed, IEvent.AutoInstall _ => true
  | IState.Closed, IEvent.InteractiveInstall => true
  | IState.Closed, IEvent.Reconfig => true
  | IState.AutoInstalling _, IEvent.BlockOnInstaller => true
  | IState.PreparedGui _ _, IEvent.StartInstaller => true
  | IState.PreparedTui _ _, IEvent.StartInstaller => true
  | IState.Ready _ _, IEvent.BlockOnInstaller => true
  | _, _ => false

/-- Modelled from the spec: the state-machine engine dispatch of
`state_machine.h`, which is absent from the sources. If the current state
declares a handler for the event's kind, the handler runs and its result is the
new state (`some`); otherwise the event is rejected, the state is untouched and
no effect is performed (`none`, empty trace). The handlers themselves are
embedded from `installer_controller.h` above. -/
def applyInstaller (P : InstallerPolicy) :
    IState → IEvent → Option IState × List IEff
  | IState.Closed, IEvent.AutoInstall f =>
      let r := Closed_onAutoInstall P f
      (some r.1, r.2)
  | IState.Closed, IEvent.InteractiveInstall =>
      let r := Closed_onInteractiveInstall P
      (some r.1, r.2)
  | IState.Closed, IEvent.Reconfig =>
      let r := Closed_onReconfig P
      (some r.1, r.2)
  | IState.AutoInstalling cli, IEvent.BlockOnInstaller =>
      let r := AutoInstalling_onBlock P cli
      (some r.1, r.2)
  | IState.PreparedGui cli mode, IEvent.StartInstaller =>
      let r := start_installer_async P mode cli
      (some r.1, r.2)
  | IState.PreparedTui cli mode, IEvent.StartInstaller =>
      let r := start_installer_async P mode cli
      (some r.1, r.2)
  | IState.Ready oobeProcess timeout, IEvent.BlockOnInstaller =>
      let r := Ready_onBlock P oobeProcess timeout
      (some r.1, r.2)
  | _, _ => (none, [])

/-- The controller state after submitting one event: the handler's result on a
transition, the previous state unchanged on a rejection. -/
def stepInstaller (P : InstallerPolicy) (s : IState) (e : IEvent) : IState :=
  ((applyInstaller P s e).1).getD s

/-- Modelled from the spec: the Splash Controller events of `splash_controller.h`
(absent from the sources): `Run{target}`, `ToggleVisibility`,
`PlaceBehind{otherWindow}`, `Close`. -/
inductive SEvent
  | Run
  | ToggleVisibility
  | PlaceBehind (otherWindow : Nat)
  | Close
deriving DecidableEq

/-- Modelled from the spec: the Splash Controller states. `Visible`/`Hidden`
carry the located window handle; `ShouldBeClosed` keeps the handle of the window
that was asked to close. -/
inductive SState
  | Idle
  | Visible (window : Nat)
  | Hidden (window : Nat)
  | ShouldBeClosed (window : Nat)
deriving DecidableEq

/-- Modelled from the spec: the splash capability provider (the strategy template
parameter of `SplashController`): process creation returning a success flag and
the created thread id, window lookup by thread id, show/hide/reorder, and
graceful close. -/
structure SplashStrategy where
  do_create_process : Bool
  created_thread_id : Nat
  do_find_window_by_thread_id : Nat → Option Nat
  do_show_window : Nat → Bool
  do_hide_window : Nat → Bool
  do_place_behind : Nat → Nat → Bool

/-- Observable provider side effects performed inside splash transition handlers. -/
inductive SEff
  | createProcess
  | findWindow (threadId : Nat)
  | showWindow (window : Nat)
  | hideWindow (window : Nat)
  | placeBehind (front behind : Nat)
  | gracefulClose (window : Nat)
deriving DecidableEq

/-- The (state kind, event kind) pairs for which the splash controller declares a
handler, per the spec transition table. -/
def splashHasHandler : SState → SEvent → Bool
  | SState.Idle, SEvent.Run => true
  | SState.Visible _, SEvent.ToggleVisibility => true
  | SState.Hidden _, SEvent.ToggleVisibility => true
  | SState.Visible _, SEvent.PlaceBehind _ => true
  | SState.Hidden _, SEvent.PlaceBehind _ => true
  | SState.Visible _, SEvent.Close => true
  | SState.Hidden _, SEvent.Close => true
  | _, _ => false

/-- Modelled from the spec: the Splash Controller transitions of
`splash_controller.h` together with the engine dispatch of `state_machine.h`,
both absent from the sources. `Idle + Run` creates the splash process (reject on
failure), locates its window by the created thread id (reject when not found),
shows it and becomes `Visible`. Toggling flips `Visible`/`Hidden`; `PlaceBehind`
reorders and lands in `Visible` from either; `Close` gracefully closes and
becomes `ShouldBeClosed` unconditionally. Every other pair is rejected. -/
def applySplash (Q : SplashStrategy) :
    SState → SEvent → Option SState × List SEff
  | SState.Idle, SEvent.Run =>
      if Q.do_create_process = false then
        (none, [SEff.createProcess])
      else
        match Q.do_find_window_by_thread_id Q.created_thread_id with
        | none =>
            (none, [SEff.createProcess, SEff.findWindow Q.created_thread_id])
        | some window =>
            (some (SState.Visible window),
             [SEff.createProcess, SEff.findWindow Q.created_thread_id,
              SEff.showWindow window])
  | SState.Visible window, SEvent.ToggleVisibility =>
      (some (SState.Hidden window), [SEff.hideWindow window])
  | SState.Hidden window, SEvent.ToggleVisibility =>
      (some (SState.Visible window), [SEff.showWindow window])
  | SState.Visible window, SEvent.PlaceBehind other =>
      (some (SState.Visible window), [SEff.placeBehind window other])
  | SState.Hidden window, SEvent.PlaceBehind other =>
      (some (SState.Visible window), [SEff.placeBehind window other])
  | SState.Visible window, SEvent.Close =>
      (some (SState.ShouldBeClosed window), [SEff.gracefulClose window])
  | SState.Hidden window, SEvent.Close =>
      (some (SState.ShouldBeClosed window), [SEff.gracefulClose window])
  | _, _ => (none, [])

/-- The splash controller state after submitting one event: the handler's result
on a transition, the previous state unchanged on a rejection. -/
def stepSplash (Q : SplashStrategy) (s : SState) (e : SEvent) : SState :=
  ((applySplash Q s e).1).getD s

/-- States of the splash controller reachable from `s` by submitting any sequence
of events to a controller bound to the strategy `Q` (only accepted transitions
move the state; a rejected event leaves it in place, so rejections need no step). -/
inductive SplashReach (Q : SplashStrategy) : SState → SState → Prop
  | refl (s : SState) : SplashReach Q s s
  | step {s t u : SState} (e : SEvent) :
      SplashReach Q s t → (applySplash Q t e).1 = some u → SplashReach Q s u

/-! Concrete capability providers used to witness the theorems. -/

/-- A provider with the installer available, every operation succeeding with exit
code 0, and no answers file present on the filesystem. -/
def okPolicy : InstallerPolicy :=
  ⟨true, "launcher --installer", " --prefill=user-info", false,
   fun _ => false, fun _ _ => true, fun _ => 0, fun _ => some 1, fun _ _ => 0⟩

/-- A provider on a distribution where the installer is unavailable. -/
def unavailPolicy : InstallerPolicy :=
  ⟨false, "launcher --installer", " --prefill=user-info", false,
   fun _ => false, fun _ _ => true, fun _ => 0, fun _ => some 1, fun _ _ => 0⟩

/-- A provider where the answers file exists and every operation succeeds. -/
def filePolicy : InstallerPolicy :=
  ⟨true, "launcher --installer", " --prefill=user-info", false,
   fun _ => true, fun _ _ => true, fun _ => 0, fun _ => some 1, fun _ _ => 0⟩

/-- A provider whose environment requires text mode. -/
def tuiPolicy : InstallerPolicy :=
  ⟨true, "launcher --installer", " --prefill=user-info", true,
   fun _ => false, fun _ _ => true, fun _ => 0, fun _ => some 1, fun _ _ => 0⟩

/-- A splash strategy where every operation succeeds: process creation yields
thread id 7 and the window found for any thread id is handle 5. -/
def okSplash : SplashStrategy :=
  ⟨true, 7, fun _ => some 5, fun _ => true, fun _ => true, fun _ _ => true⟩

/-- A splash strategy whose process creation always fails. -/
def noLaunchSplash : SplashStrategy :=
  ⟨false, 7, fun _ => none, fun _ => true, fun _ => true, fun _ _ => true⟩

/-- A splash strategy that creates the process but never finds its window. -/
def noWindowSplash : SplashStrategy :=
  ⟨true, 7, fun _ => none, fun _ => true, fun _ => true, fun _ _ => true⟩

/-- Claim C1: for every (current state, event) pair with no declared handler,
submitting the event to the controller is rejected (no transition is reported),
the state is left unchanged and no provider effect is performed; this holds for
every state of both the Splash Controller and the Installer Controller, and the
embedded `apply` functions are total, so no language-level error can arise. -/
theorem no_handler_rejects (P : InstallerPolicy) (Q : SplashStrategy)
    (s : IState) (e : IEvent) (t : SState) (f : SEvent)
    (hi : installerHasHandler s e = false) (hs : splashHasHandler t f = false) :
    applyInstaller P s e = (none, []) ∧ stepInstaller P s e = s ∧
    applySplash Q t f = (none, []) ∧ stepSplash Q t f = t := by
  have h1 : applyInstaller P s e = (none, []) := by
    cases s <;> cases e <;> simp_all [installerHasHandler, applyInstaller]
  have h2 : applySplash Q t f = (none, []) := by
    cases t <;> cases f <;> simp_all [splashHasHandler, applySplash]
  exact ⟨h1, by simp [stepInstaller, h1], h2, by simp [stepSplash, h2]⟩

/-- Witness for C1 at the pair (Success, Reconfig) of the installer and
(ShouldBeClosed, Close) of the splash controller. -/
theorem no_handler_rejects_witness :
    installerHasHandler IState.Success IEvent.Reconfig = false ∧
    splashHasHandler (SState.ShouldBeClosed 3) SEvent.Close = false ∧
    applyInstaller okPolicy IState.Success IEvent.Reconfig = (none, []) ∧
    applySplash okSplash (SState.ShouldBeClosed 3) SEvent.Close = (none, []) :=
  ⟨rfl, rfl,
   (no_handler_rejects okPolicy okSplash IState.Success IEvent.Reconfig
      (SState.ShouldBeClosed 3) SEvent.Close rfl rfl).1,
   (no_handler_rejects okPolicy okSplash IState.Success IEvent.Reconfig
      (SState.ShouldBeClosed 3) SEvent.Close rfl rfl).2.2.1⟩

/-- Claim C2: closing and finishing are one-shot. For the splash controller,
`Close` from `Visible` or `Hidden` succeeds and reaches `ShouldBeClosed`, and in
`ShouldBeClosed` every event (Close, ToggleVisibility, PlaceBehind, Run alike)
is rejected with the state unchanged. For the installer controller, in `Success`
and in `UpstreamDefaultInstall` every one of the five events is rejected with
the state unchanged. -/
theorem terminal_states_one_shot (P : InstallerPolicy) (Q : SplashStrategy)
    (w : Nat) (e : SEvent) (hr : Nat) (ev : IEvent) :
    (applySplash Q (SState.Visible w) SEvent.Close).1
      = some (SState.ShouldBeClosed w) ∧
    (applySplash Q (SState.Hidden w) SEvent.Close).1
      = some (SState.ShouldBeClosed w) ∧
    applySplash Q (SState.ShouldBeClosed w) e = (none, []) ∧
    stepSplash Q (SState.ShouldBeClosed w) e = SState.ShouldBeClosed w ∧
    applyInstaller P IState.Success ev = (none, []) ∧
    stepInstaller P IState.Success ev = IState.Success ∧
    applyInstaller P (IState.UpstreamDefaultInstall hr) ev = (none, []) ∧
    stepInstaller P (IState.UpstreamDefaultInstall hr) ev
      = IState.UpstreamDefaultInstall hr := by
  cases e <;> cases ev <;>
    simp [applySplash, applyInstaller, stepSplash, stepInstaller]

/-- Counterexample to C3 as stated: the availability check precedes the
answers-file existence check, so a provider whose installer is unavailable
yields `UpstreamDefaultInstall` with the not-implemented reason `E_NOTIMPL`,
not the generic failure `E_FAIL`, even though the answers file does not exist. -/
theorem autoinstall_missing_file_counterexample :
    unavailPolicy.fs_exists "/no/such/file" = false ∧
    (applyInstaller unavailPolicy IState.Closed
        (IEvent.AutoInstall "/no/such/file")).1
      = some (IState.UpstreamDefaultInstall E_NOTIMPL) ∧
    IState.UpstreamDefaultInstall E_NOTIMPL
      ≠ IState.UpstreamDefaultInstall E_FAIL := by
  refine ⟨rfl, rfl, ?_⟩
  simp [E_NOTIMPL, E_FAIL]

/-- Claim C3 (amended): for every provider on which the installer is available,
applying `AutoInstall` with an answers-file path that does not exist to the
installer controller in state `Closed` results in `UpstreamDefaultInstall`
carrying the generic-failure reason `E_FAIL` (after logging), regardless of the
provider's other capabilities. -/
theorem autoinstall_missing_file_fallback (P : InstallerPolicy) (f : String)
    (havail : P.is_oobe_available = true) (hex : P.fs_exists f = false) :
    applyInstaller P IState.Closed (IEvent.AutoInstall f)
      = (some (IState.UpstreamDefaultInstall E_FAIL),
         [IEff.logMsg "Answers file not found. Cannot proceed with auto installation"]) := by
  simp [applyInstaller, Closed_onAutoInstall, havail, hex]

/-- Witness for the amended C3 with an available installer and a missing file. -/
theorem autoinstall_missing_file_fallback_witness :
    okPolicy.is_oobe_available = true ∧
    okPolicy.fs_exists "/no/such/file" = false ∧
    (applyInstaller okPolicy IState.Closed
        (IEvent.AutoInstall "/no/such/file")).1
      = some (IState.UpstreamDefaultInstall E_FAIL) :=
  ⟨rfl, rfl, by
    rw [autoinstall_missing_file_fallback okPolicy "/no/such/file" rfl rfl]⟩

/-- Claim C4: with the installer available and an existing answers file,
`AutoInstall` in `Closed` copies the file into the fixed staging location
`/var/tmp/<filename>` inside the distribution's filesystem (the copy is always
attempted, on both outcomes); if the copy fails the state becomes
`UpstreamDefaultInstall` with `E_FAIL`, and if it succeeds the state becomes
`AutoInstalling` carrying a text-mode autoinstall command line that references
the staged copy. -/
theorem autoinstall_staging (P : InstallerPolicy) (f : String)
    (havail : P.is_oobe_available = true) (hex : P.fs_exists f = true) :
    IEff.copyFile f (stagingDir ++ pathFilename f)
      ∈ (applyInstaller P IState.Closed (IEvent.AutoInstall f)).2 ∧
    (P.copy_file_into_distro f (stagingDir ++ pathFilename f) = false →
      (applyInstaller P IState.Closed (IEvent.AutoInstall f)).1
        = some (IState.UpstreamDefaultInstall E_FAIL)) ∧
    (P.copy_file_into_distro f (stagingDir ++ pathFilename f) = true →
      (applyInstaller P IState.Closed (IEvent.AutoInstall f)).1
        = some (IState.AutoInstalling
            (P.OobeCommand ++ " --text " ++ "--autoinstall "
              ++ (stagingDir ++ pathFilename f)))) := by
  by_cases hc : P.copy_file_into_distro f (stagingDir ++ pathFilename f) = true
  · refine ⟨?_, ?_, ?_⟩ <;>
      simp [applyInstaller, Closed_onAutoInstall, havail, hex, hc]
  · rw [Bool.not_eq_true] at hc
    refine ⟨?_, ?_, ?_⟩ <;>
      simp [applyInstaller, Closed_onAutoInstall, havail, hex, hc]

/-- Witness for C4: the answers file `/home/u/answers.yaml` is staged at
`/var/tmp/answers.yaml` and the composed command line references it. -/
theorem autoinstall_staging_witness :
    filePolicy.is_oobe_available = true ∧
    filePolicy.fs_exists "/home/u/answers.yaml" = true ∧
    filePolicy.copy_file_into_distro "/home/u/answers.yaml"
      "/var/tmp/answers.yaml" = true ∧
    IEff.copyFile "/home/u/answers.yaml" "/var/tmp/answers.yaml"
      ∈ (applyInstaller filePolicy IState.Closed
          (IEvent.AutoInstall "/home/u/answers.yaml")).2 ∧
    (applyInstaller filePolicy IState.Closed
        (IEvent.AutoInstall "/home/u/answers.yaml")).1
      = some (IState.AutoInstalling
          "launcher --installer --text --autoinstall /var/tmp/answers.yaml") :=
  ⟨rfl, rfl, rfl,
   (autoinstall_staging filePolicy "/home/u/answers.yaml" rfl rfl).1,
   (autoinstall_staging filePolicy "/home/u/answers.yaml" rfl rfl).2.2 rfl⟩

/-- Claim C5: `InteractiveInstall` in `Closed` falls back to
`UpstreamDefaultInstall (E_NOTIMPL)` when the installer is unavailable;
otherwise it seeds the command line with the provider's pre-fill user
information and, when the provider reports that text mode is required, appends
the text-mode flag and yields `PreparedTui` with that command line, else yields
`PreparedGui` with that command line. No provider side effect is performed. -/
theorem interactive_install_modes (P : InstallerPolicy) :
    (P.is_oobe_available = false →
      applyInstaller P IState.Closed IEvent.InteractiveInstall
        = (some (IState.UpstreamDefaultInstall E_NOTIMPL), [])) ∧
    (P.is_oobe_available = true → P.must_run_in_text_mode = true →
      applyInstaller P IState.Closed IEvent.InteractiveInstall
        = (some (IState.PreparedTui
            (P.OobeCommand ++ P.prepare_prefill_info ++ " --text") Mode.Text),
           [])) ∧
    (P.is_oobe_available = true → P.must_run_in_text_mode = false →
      applyInstaller P IState.Closed IEvent.InteractiveInstall
        = (some (IState.PreparedGui
            (P.OobeCommand ++ P.prepare_prefill_info) Mode.Gui), [])) := by
  refine ⟨fun h1 => ?_, fun h1 h2 => ?_, fun h1 h2 => ?_⟩ <;>
    simp [applyInstaller, Closed_onInteractiveInstall, h1, *]

/-- Witness for C5 in both the text-mode-required and the GUI provider. -/
theorem interactive_install_modes_witness :
    applyInstaller tuiPolicy IState.Closed IEvent.InteractiveInstall
      = (some (IState.PreparedTui
          "launcher --installer --prefill=user-info --text" Mode.Text), []) ∧
    applyInstaller okPolicy IState.Closed IEvent.InteractiveInstall
      = (some (IState.PreparedGui
          "launcher --installer --prefill=user-info" Mode.Gui), []) :=
  ⟨(interactive_install_modes tuiPolicy).2.1 rfl rfl,
   (interactive_install_modes okPolicy).2.2 rfl rfl⟩

/-- Claim C6: `Reconfig` in `Closed` falls back with `E_NOTIMPL` when the
installer is unavailable; otherwise it composes a (text-mode when required)
command line and launches it synchronously, the resulting state being `Success`
exactly when the exit code is zero and `UpstreamDefaultInstall (E_FAIL)` exactly
when it is non-zero; and `Reconfig` is the only event whose handling out of
`Closed` performs a synchronous launch. -/
theorem reconfig_sync_launch (P : InstallerPolicy) (e : IEvent) :
    (P.is_oobe_available = false →
      applyInstaller P IState.Closed IEvent.Reconfig
        = (some (IState.UpstreamDefaultInstall E_NOTIMPL), [])) ∧
    (P.is_oobe_available = true →
      applyInstaller P IState.Closed IEvent.Reconfig
        = (some (if P.do_launch_sync
                    (P.OobeCommand
                      ++ (if P.must_run_in_text_mode then " --text" else "")) = 0
                 then IState.Success
                 else IState.UpstreamDefaultInstall E_FAIL),
           [IEff.launchSync
              (P.OobeCommand
                ++ (if P.must_run_in_text_mode then " --text" else ""))])) ∧
    (∀ cli, IEff.launchSync cli ∈ (applyInstaller P IState.Closed e).2 →
      e = IEvent.Reconfig) := by
  refine ⟨fun h1 => ?_, fun h1 => ?_, ?_⟩
  · simp [applyInstaller, Closed_onReconfig, h1]
  · by_cases hz :
      P.do_launch_sync
        (P.OobeCommand ++ (if P.must_run_in_text_mode then " --text" else "")) = 0 <;>
      simp [applyInstaller, Closed_onReconfig, h1, hz]
  · intro cli hmem
    cases e with
    | AutoInstall f =>
        exfalso
        revert hmem
        simp only [applyInstaller, Closed_onAutoInstall]
        split
        · simp
        · split
          · simp
          · split <;> simp
    | InteractiveInstall =>
        exfalso
        revert hmem
        simp only [applyInstaller, Closed_onInteractiveInstall]
        split <;> try split
        all_goals simp
    | Reconfig => rfl
    | StartInstaller => simp [applyInstaller] at hmem
    | BlockOnInstaller => simp [applyInstaller] at hmem

/-- Witness for C6: an available provider with zero exit reaches `Success` with
exactly one synchronous launch; an unavailable one falls back. -/
theorem reconfig_sync_launch_witness :
    applyInstaller okPolicy IState.Closed IEvent.Reconfig
      = (some IState.Success, [IEff.launchSync "launcher --installer"]) ∧
    applyInstaller unavailPolicy IState.Closed IEvent.Reconfig
      = (some (IState.UpstreamDefaultInstall E_NOTIMPL), []) :=
  ⟨(reconfig_sync_launch okPolicy IEvent.Reconfig).2.1 rfl,
   (reconfig_sync_launch unavailPolicy IEvent.Reconfig).1 rfl⟩

/-- Claim C7: `StartInstaller` in `PreparedGui` or `PreparedTui` launches the
stored command line asynchronously; if the provider cannot start the process
the state becomes `UpstreamDefaultInstall (E_FAIL)`, otherwise it becomes
`Ready` carrying the process handle and a mode-dependent timeout: the
`INFINITE` (unbounded) sentinel for text mode and the bounded ceiling of
4 minutes in milliseconds for graphical mode. -/
theorem start_installer_timeout (P : InstallerPolicy) (cli : String) (m : Mode)
    (s : IState)
    (hs : s = IState.PreparedGui cli m ∨ s = IState.PreparedTui cli m) :
    IEff.launchAsync cli ∈ (applyInstaller P s IEvent.StartInstaller).2 ∧
    (P.start_installer_async cli = none →
      (applyInstaller P s IEvent.StartInstaller).1
        = some (IState.UpstreamDefaultInstall E_FAIL)) ∧
    (∀ h, P.start_installer_async cli = some h →
      (applyInstaller P s IEvent.StartInstaller).1
        = some (IState.Ready h
            (if m = Mode.Text then INFINITE else 1000 * 60 * 4))) ∧
    1000 * 60 * 4 < INFINITE := by
  have hmain : ∀ t : IState, t = IState.PreparedGui cli m ∨ t = IState.PreparedTui cli m →
      applyInstaller P t IEvent.StartInstaller
        = (some (start_installer_async P m cli).1,
           (start_installer_async P m cli).2) := by
    rintro t (rfl | rfl) <;> simp [applyInstaller]
  rw [hmain s hs]
  refine ⟨?_, fun hnone => ?_, fun h hsome => ?_, ?_⟩
  · cases hasync : P.start_installer_async cli <;>
      simp [start_installer_async, hasync]
  · simp [start_installer_async, hnone]
  · simp [start_installer_async, hsome]
  · simp [INFINITE]

/-- Witness for C7: from `PreparedTui` the timeout is `INFINITE`; from
`PreparedGui` it is 240000 milliseconds. -/
theorem start_installer_timeout_witness :
    (applyInstaller okPolicy (IState.PreparedTui "cli" Mode.Text)
        IEvent.StartInstaller).1
      = some (IState.Ready 1 INFINITE) ∧
    (applyInstaller okPolicy (IState.PreparedGui "cli" Mode.Gui)
        IEvent.StartInstaller).1
      = some (IState.Ready 1 240000) :=
  ⟨(start_installer_timeout okPolicy "cli" Mode.Text _
      (Or.inr rfl)).2.2.1 1 rfl,
   (start_installer_timeout okPolicy "cli" Mode.Gui _
      (Or.inl rfl)).2.2.1 1 rfl⟩

/-- Claim C8: `BlockOnInstaller` in `AutoInstalling` launches the stored
command line synchronously, and in `Ready` waits on the stored process handle
with the stored timeout, the handle being consumed (hence released) exactly
once on both the success and the failure path; in both states a non-zero
outcome (a timed-out wait surfaces as a non-zero code from `consume_process`)
yields `UpstreamDefaultInstall (E_FAIL)`, and a zero outcome invokes
exit-status handling and yields `Success`. -/
theorem block_on_installer_behavior (P : InstallerPolicy) (cli : String)
    (hproc t : Nat) :
    (P.do_launch_sync cli ≠ 0 →
      applyInstaller P (IState.AutoInstalling cli) IEvent.BlockOnInstaller
        = (some (IState.UpstreamDefaultInstall E_FAIL),
           [IEff.launchSync cli])) ∧
    (P.do_launch_sync cli = 0 →
      applyInstaller P (IState.AutoInstalling cli) IEvent.BlockOnInstaller
        = (some IState.Success,
           [IEff.launchSync cli, IEff.handleExitStatus])) ∧
    ((applyInstaller P (IState.Ready hproc t) IEvent.BlockOnInstaller).2).count
        (IEff.consumeProc hproc t) = 1 ∧
    (P.consume_process hproc t ≠ 0 →
      applyInstaller P (IState.Ready hproc t) IEvent.BlockOnInstaller
        = (some (IState.UpstreamDefaultInstall E_FAIL),
           [IEff.consumeProc hproc t])) ∧
    (P.consume_process hproc t = 0 →
      applyInstaller P (IState.Ready hproc t) IEvent.BlockOnInstaller
        = (some IState.Success,
           [IEff.consumeProc hproc t, IEff.handleExitStatus])) := by
  refine ⟨fun h1 => ?_, fun h1 => ?_, ?_, fun h1 => ?_, fun h1 => ?_⟩
  · simp [applyInstaller, AutoInstalling_onBlock, h1]
  · simp [applyInstaller, AutoInstalling_onBlock, h1]
  · by_cases hz : P.consume_process hproc t = 0 <;>
      simp [applyInstaller, Ready_onBlock, hz, List.count_cons]
  · simp [applyInstaller, Ready_onBlock, h1]
  · simp [applyInstaller, Ready_onBlock, h1]

/-- Witness for C8 with a provider reporting zero exit codes: both blocking
transitions reach `Success` with exit-status handling, and the `Ready` handle is
consumed exactly once. -/
theorem block_on_installer_behavior_witness :
    applyInstaller okPolicy (IState.AutoInstalling "cli") IEvent.BlockOnInstaller
      = (some IState.Success, [IEff.launchSync "cli", IEff.handleExitStatus]) ∧
    ((applyInstaller okPolicy (IState.Ready 1 240000)
        IEvent.BlockOnInstaller).2).count (IEff.consumeProc 1 240000) = 1 ∧
    applyInstaller okPolicy (IState.Ready 1 240000) IEvent.BlockOnInstaller
      = (some IState.Success,
         [IEff.consumeProc 1 240000, IEff.handleExitStatus]) :=
  ⟨(block_on_installer_behavior okPolicy "cli" 1 240000).2.1 rfl,
   (block_on_installer_behavior okPolicy "cli" 1 240000).2.2.1,
   (block_on_installer_behavior okPolicy "cli" 1 240000).2.2.2.2 rfl⟩

/-- One accepted splash transition out of a state other than `Idle` never lands
back in `Idle`. -/
theorem splash_step_preserves_nonIdle (Q : SplashStrategy) {s u : SState}
    (e : SEvent) (hs : s ≠ SState.Idle)
    (h : (applySplash Q s e).1 = some u) : u ≠ SState.Idle := by
  cases s with
  | Idle => exact absurd rfl hs
  | Visible w => cases e <;> simp [applySplash] at h <;> simp [← h]
  | Hidden w => cases e <;> simp [applySplash] at h <;> simp [← h]
  | ShouldBeClosed w => cases e <;> simp [applySplash] at h

/-- Every splash state reachable from a state other than `Idle` is itself other
than `Idle`. -/
theorem splash_reach_nonIdle (Q : SplashStrategy) {s t : SState}
    (hs : s ≠ SState.Idle) (h : SplashReach Q s t) : t ≠ SState.Idle := by
  induction h with
  | refl => exact hs
  | step e hreach happly ih => exact splash_step_preserves_nonIdle Q e ih happly

/-- Claim C9: the splash `Run` event produces a state change only from `Idle`.
From any other state it is rejected outright. From `Idle`: if process creation
fails the event is rejected and the state stays `Idle`; if the created process's
window cannot be located by the created thread id the event is also rejected and
the state stays `Idle`; only when both provider calls succeed does the
controller show the window and become `Visible`. After such a successful `Run`,
`Run` is rejected from every state reachable from `Visible`. -/
theorem splash_run_only_from_idle (Q : SplashStrategy) :
    (∀ s, s ≠ SState.Idle → applySplash Q s SEvent.Run = (none, [])) ∧
    (Q.do_create_process = false →
      applySplash Q SState.Idle SEvent.Run = (none, [SEff.createProcess]) ∧
      stepSplash Q SState.Idle SEvent.Run = SState.Idle) ∧
    (Q.do_create_process = true →
      Q.do_find_window_by_thread_id Q.created_thread_id = none →
      applySplash Q SState.Idle SEvent.Run
        = (none, [SEff.createProcess, SEff.findWindow Q.created_thread_id]) ∧
      stepSplash Q SState.Idle SEvent.Run = SState.Idle) ∧
    (∀ w, Q.do_create_process = true →
      Q.do_find_window_by_thread_id Q.created_thread_id = some w →
      applySplash Q SState.Idle SEvent.Run
        = (some (SState.Visible w),
           [SEff.createProcess, SEff.findWindow Q.created_thread_id,
            SEff.showWindow w])) ∧
    (∀ w t, SplashReach Q (SState.Visible w) t →
      (applySplash Q t SEvent.Run).1 = none) := by
  have hrej : ∀ s, s ≠ SState.Idle → applySplash Q s SEvent.Run = (none, []) := by
    intro s hs
    cases s with
    | Idle => exact absurd rfl hs
    | Visible w => simp [applySplash]
    | Hidden w => simp [applySplash]
    | ShouldBeClosed w => simp [applySplash]
  refine ⟨hrej, fun h1 => ?_, fun h1 h2 => ?_, fun w h1 h2 => ?_, fun w t hreach => ?_⟩
  · constructor <;> simp [applySplash, stepSplash, h1]
  · constructor <;> simp [applySplash, stepSplash, h1, h2]
  · simp [applySplash, h1, h2]
  · have ht : t ≠ SState.Idle :=
      splash_reach_nonIdle Q (by simp) hreach
    rw [hrej t ht]

/-- Witness for C9: with a fully working strategy `Run` from `Idle` shows window
5 and becomes `Visible`, and `Run` is rejected at `Visible 5` itself and at
`Hidden 5`, reachable from it by one `ToggleVisibility`. -/
theorem splash_run_only_from_idle_witness :
    applySplash okSplash SState.Idle SEvent.Run
      = (some (SState.Visible 5),
         [SEff.createProcess, SEff.findWindow 7, SEff.showWindow 5]) ∧
    (applySplash okSplash (SState.Visible 5) SEvent.Run).1 = none ∧
    (applySplash okSplash (SState.Hidden 5) SEvent.Run).1 = none ∧
    applySplash noLaunchSplash SState.Idle SEvent.Run
      = (none, [SEff.createProcess]) ∧
    (applySplash noWindowSplash SState.Idle SEvent.Run).1 = none :=
  ⟨(splash_run_only_from_idle okSplash).2.2.2.1 5 rfl rfl,
   (splash_run_only_from_idle okSplash).2.2.2.2 5 (SState.Visible 5)
     (SplashReach.refl _),
   (splash_run_only_from_idle okSplash).2.2.2.2 5 (SState.Hidden 5)
     (SplashReach.step SEvent.ToggleVisibility (SplashReach.refl _) rfl),
   ((splash_run_only_from_idle noLaunchSplash).2.1 rfl).1,
   by rw [((splash_run_only_from_idle noWindowSplash).2.2.1 rfl rfl).1]⟩

/-- Claim C10: on a zero exit code the `Reconfig` transition out of `Closed`
reaches `Success` without ever invoking the provider's exit-status-handling
side effect (its effect trace contains no `handleExitStatus`, whatever the
outcome), whereas the zero-outcome paths of `BlockOnInstaller` from
`AutoInstalling` and from `Ready` each invoke exit-status handling exactly once
before reaching `Success`. -/
theorem exit_status_handling_counts (P : InstallerPolicy) (cli : String)
    (hproc t : Nat) :
    ((applyInstaller P IState.Closed IEvent.Reconfig).2).count
        IEff.handleExitStatus = 0 ∧
    (P.is_oobe_available = true →
      P.do_launch_sync
        (P.OobeCommand ++ (if P.must_run_in_text_mode then " --text" else "")) = 0 →
      (applyInstaller P IState.Closed IEvent.Reconfig).1 = some IState.Success) ∧
    (P.do_launch_sync cli = 0 →
      ((applyInstaller P (IState.AutoInstalling cli)
          IEvent.BlockOnInstaller).2).count IEff.handleExitStatus = 1 ∧
      (applyInstaller P (IState.AutoInstalling cli)
          IEvent.BlockOnInstaller).1 = some IState.Success) ∧
    (P.consume_process hproc t = 0 →
      ((applyInstaller P (IState.Ready hproc t)
          IEvent.BlockOnInstaller).2).count IEff.handleExitStatus = 1 ∧
      (applyInstaller P (IState.Ready hproc t)
          IEvent.BlockOnInstaller).1 = some IState.Success) := by
  refine ⟨?_, fun h1 h2 => ?_, fun h1 => ?_, fun h1 => ?_⟩
  · by_cases h1 : P.is_oobe_available = false
    · simp [applyInstaller, Closed_onReconfig, h1]
    · rw [Bool.not_eq_false] at h1
      by_cases hz :
        P.do_launch_sync
          (P.OobeCommand ++ (if P.must_run_in_text_mode then " --text" else "")) = 0 <;>
        simp [applyInstaller, Closed_onReconfig, h1, hz, List.count_cons]
  · simp [applyInstaller, Closed_onReconfig, h1, h2]
  · constructor <;>
      simp [applyInstaller, AutoInstalling_onBlock, h1, List.count_cons]
  · constructor <;>
      simp [applyInstaller, Ready_onBlock, h1, List.count_cons]

/-- Witness for C10 with a provider reporting zero exit codes everywhere. -/
theorem exit_status_handling_counts_witness :
    ((applyInstaller okPolicy IState.Closed IEvent.Reconfig).2).count
        IEff.handleExitStatus = 0 ∧
    (applyInstaller okPolicy IState.Closed IEvent.Reconfig).1
      = some IState.Success ∧
    ((applyInstaller okPolicy (IState.AutoInstalling "cli")
        IEvent.BlockOnInstaller).2).count IEff.handleExitStatus = 1 ∧
    ((applyInstaller okPolicy (IState.Ready 1 240000)
        IEvent.BlockOnInstaller).2).count IEff.handleExitStatus = 1 :=
  ⟨(exit_status_handling_counts okPolicy "cli" 1 240000).1,
   (exit_status_handling_counts okPolicy "cli" 1 240000).2.1 rfl rfl,
   ((exit_status_handling_counts okPolicy "cli" 1 240000).2.2.1 rfl).1,
   ((exit_status_handling_counts okPolicy "cli" 1 240000).2.2.2 rfl).1⟩

end Oobe
